import Mathlib

/-!
Shallow embedding of the RegenArdhi Land Analysis Engine
(`app/projects.py` and `app/api_integrations.py`) over exact rational
arithmetic, together with theorems settling the frozen claims about it.

Python floats are modelled as `ℚ`, Python strings as `String`, Python
dict lookups as total functions returning `Option` (where `d[k]` can
raise `KeyError`) or with their `.get` default inlined.  Fallible code
returns `Option`.
-/

namespace RegenArdhi

/-- Python float modulo `x % y`: `x - y * floor (x / y)` (sign follows `y`). -/
def pyMod (x y : ℚ) : ℚ := x - y * ⌊x / y⌋

/-- Python `int(x)` on a float: truncation toward zero. -/
def pyTrunc (x : ℚ) : ℤ := if 0 ≤ x then ⌊x⌋ else ⌈x⌉

/-- Python `round` to an integer: round half to even (banker's rounding). -/
def roundHalfEven (x : ℚ) : ℤ :=
  if x - ⌊x⌋ = 1 / 2 then (if ⌊x⌋ % 2 = 0 then ⌊x⌋ else ⌊x⌋ + 1)
  else round x

/-- Python `round(x, n)` on our rational model of floats. -/
def pyRound (n : ℕ) (x : ℚ) : ℚ := (roundHalfEven (x * 10 ^ n) : ℚ) / 10 ^ n

lemma floor_le_roundHalfEven (x : ℚ) : ⌊x⌋ ≤ roundHalfEven x := by
  unfold roundHalfEven
  split_ifs with h1 h2
  · exact le_refl _
  · exact Int.le.intro 1 rfl
  · rw [round_eq]
    exact Int.floor_le_floor (by linarith)

lemma roundHalfEven_le_ceil (x : ℚ) : roundHalfEven x ≤ ⌈x⌉ := by
  unfold roundHalfEven
  split_ifs with h1 h2
  · exact Int.floor_le_ceil x
  · have hlt : (⌊x⌋ : ℚ) < x := by
      have : x = (⌊x⌋ : ℚ) + 1 / 2 := by linarith
      rw [this]; norm_num
    have : ⌊x⌋ < ⌈x⌉ := by
      exact_mod_cast lt_of_lt_of_le hlt (Int.le_ceil x)
    omega
  · rw [round_eq, Int.floor_le_iff]
    have := Int.le_ceil x
    linarith

lemma le_pyRound (n : ℕ) (x : ℚ) (a : ℤ) (h : (a : ℚ) ≤ x * 10 ^ n) :
    (a : ℚ) / 10 ^ n ≤ pyRound n x := by
  unfold pyRound
  have h10 : (0 : ℚ) ≤ 10 ^ n := by positivity
  apply div_le_div_of_nonneg_right ?_ h10 |>.trans_eq rfl
  have h1 : a ≤ ⌊x * 10 ^ n⌋ := Int.le_floor.mpr h
  have h2 := floor_le_roundHalfEven (x * 10 ^ n)
  exact_mod_cast le_trans h1 h2

lemma pyRound_le (n : ℕ) (x : ℚ) (b : ℤ) (h : x * 10 ^ n ≤ (b : ℚ)) :
    pyRound n x ≤ (b : ℚ) / 10 ^ n := by
  unfold pyRound
  have h10 : (0 : ℚ) ≤ 10 ^ n := by positivity
  apply div_le_div_of_nonneg_right ?_ h10 |>.trans_eq rfl
  have h1 : ⌈x * 10 ^ n⌉ ≤ b := Int.ceil_le.mpr h
  have h2 := roundHalfEven_le_ceil (x * 10 ^ n)
  exact_mod_cast le_trans h2 h1

lemma roundHalfEven_intCast (k : ℤ) : roundHalfEven (k : ℚ) = k := by
  unfold roundHalfEven
  have h0 : ⌊(k : ℚ)⌋ = k := Int.floor_intCast k
  rw [h0]
  have h1 : (k : ℚ) - (k : ℚ) ≠ 1 / 2 := by norm_num
  rw [if_neg h1, round_intCast]

lemma pyRound_intCast (n : ℕ) (k : ℤ) : pyRound n (k : ℚ) = (k : ℚ) := by
  unfold pyRound
  have h10 : ((10 : ℚ) ^ n) ≠ 0 := by positivity
  have h : (k : ℚ) * 10 ^ n = ((k * 10 ^ n : ℤ) : ℚ) := by push_cast; ring
  rw [h, roundHalfEven_intCast]
  push_cast
  rw [mul_div_assoc, div_self h10, mul_one]

lemma pyRound_eq_intCast_div (n : ℕ) (x : ℚ) (k : ℤ) (h : x * 10 ^ n = (k : ℚ)) :
    pyRound n x = (k : ℚ) / 10 ^ n := by
  unfold pyRound
  rw [h, roundHalfEven_intCast]

lemma pyMod_nonneg (x y : ℚ) (hy : 0 < y) : 0 ≤ pyMod x y := by
  unfold pyMod
  have h := Int.floor_le (x / y)
  have : y * (⌊x / y⌋ : ℚ) ≤ y * (x / y) := by
    exact mul_le_mul_of_nonneg_left h (le_of_lt hy)
  rw [mul_div_cancel₀ x (ne_of_gt hy)] at this
  linarith

lemma pyMod_lt (x y : ℚ) (hy : 0 < y) : pyMod x y < y := by
  unfold pyMod
  have h := Int.lt_floor_add_one (x / y)
  have : y * (x / y) < y * ((⌊x / y⌋ : ℚ) + 1) := by
    exact mul_lt_mul_of_pos_left h hy
  rw [mul_div_cancel₀ x (ne_of_gt hy)] at this
  linarith

lemma pyTrunc_nonneg (x : ℚ) (h : 0 ≤ x) : 0 ≤ pyTrunc x := by
  unfold pyTrunc
  rw [if_pos h]
  exact Int.floor_nonneg.mpr h

/-! ## Data model -/

/-- The dict returned by `projects.get_real_climate_data` /
`projects.get_fallback_climate_data`. -/
structure ClimateData where
  temperature : ℚ
  humidity : ℚ
  pressure : ℚ
  descr : String
  wind_speed : ℚ
deriving DecidableEq

/-- The dict returned by `OpenWeatherAPI.get_current_weather` /
`OpenWeatherAPI._get_fallback_weather` (a full WeatherSnapshot). -/
structure WeatherSnapshot where
  temperature : ℚ
  feels_like : ℚ
  humidity : ℚ
  pressure : ℚ
  descr : String
  wind_speed : ℚ
  clouds : ℚ
  visibility : ℚ
  sunrise : String
  sunset : String
deriving DecidableEq

/-- `projects.get_fallback_climate_data(latitude, longitude)`. -/
def get_fallback_climate_data (latitude longitude : ℚ) : ClimateData :=
  let abs_lat := |latitude|
  let base_temp := 30 - abs_lat * 0.6
  let humidity :=
    if abs_lat < 23.5 then 70 + pyMod |longitude| 20 else 50 + pyMod |longitude| 30
  { temperature := pyRound 1 base_temp
    humidity := (pyTrunc humidity : ℚ)
    pressure := 1013
    descr := "estimated"
    wind_speed := 0 }

/-- `projects.get_real_climate_data`: the live OpenWeather fetch result when it
succeeds, else the coordinate-derived fallback.  The network fetch is modelled
by the `fetched` parameter (`none` = any failure path). -/
def get_real_climate_data (fetched : Option ClimateData) (latitude longitude : ℚ) :
    ClimateData :=
  fetched.getD (get_fallback_climate_data latitude longitude)

/-- `OpenWeatherAPI._get_fallback_weather(latitude, longitude)`.  The
`datetime.now()`-based sunrise/sunset strings are modelled via the `today`
parameter (the code formats today's date at 06:00 and 18:00). -/
def get_fallback_weather (today : String) (latitude longitude : ℚ) : WeatherSnapshot :=
  let abs_lat := |latitude|
  let base_temp := max (min (30 - abs_lat * 0.6) 45) (-20)
  let humidity :=
    if abs_lat < 23.5 then 70 + pyMod |longitude| 20 else 50 + pyMod |longitude| 30
  { temperature := pyRound 1 base_temp
    feels_like := pyRound 1 (base_temp + 2)
    humidity := (pyTrunc humidity : ℚ)
    pressure := 1013
    descr := "estimated"
    wind_speed := 0
    clouds := 50
    visibility := 10
    sunrise := today ++ "T06:00:00"
    sunset := today ++ "T18:00:00" }

/-- `OpenWeatherAPI.get_current_weather(latitude, longitude)`: the parsed live
result when the fetch succeeds (`fetched = some w`), else the fallback
estimator.  Every failure path of the code (missing key, no response, non-200,
exception) returns the fallback. -/
def get_current_weather (today : String) (latitude longitude : ℚ)
    (fetched : Option WeatherSnapshot) : WeatherSnapshot :=
  fetched.getD (get_fallback_weather today latitude longitude)

/-! ## Estimators (identical in `projects.py` and `api_integrations.py`
unless noted) -/

/-- `determine_climate_zone(latitude, temperature)`
(= `LandAnalysisService._determine_climate_zone`). -/
def determine_climate_zone (latitude temperature : ℚ) : String :=
  let abs_lat := |latitude|
  if abs_lat > 66.5 then "Polar"
  else if abs_lat > 60 then "Subpolar"
  else if abs_lat > 45 then (if temperature > 20 then "Warm Temperate" else "Cool Temperate")
  else if abs_lat > 30 then (if temperature > 25 then "Subtropical" else "Warm Temperate")
  else if abs_lat > 23.5 then "Tropical"
  else "Equatorial"

/-- `analyze_soil_type(latitude, longitude, elevation)`
(= `LandAnalysisService._analyze_soil_type`; the candidate sets always have
3 elements, so the api variant's empty-list guard is unreachable). -/
def analyze_soil_type (latitude longitude elevation : ℚ) : String :=
  let abs_lat := |latitude|
  let soil_types : List String :=
    if elevation > 2000 then ["Rocky", "Mountain Soil", "Thin Soil"]
    else if elevation > 1000 then ["Loamy", "Clay-Loam", "Sandy-Loam"]
    else if abs_lat < 10 then ["Laterite", "Tropical Red", "Alluvial"]
    else if abs_lat < 30 then ["Alluvial", "Loamy", "Red Soil"]
    else if abs_lat < 50 then ["Loamy", "Clay", "Podzol"]
    else ["Tundra", "Permafrost", "Gleysol"]
  soil_types.getD ((pyTrunc |longitude|).toNat % soil_types.length) ""

/-- The `base_ph` dict of `calculate_soil_ph`, with its `.get(_, 6.5)` default. -/
def base_ph_table (soil_type : String) : ℚ :=
  if soil_type = "Laterite" then 5.5
  else if soil_type = "Tropical Red" then 6
  else if soil_type = "Alluvial" then 7
  else if soil_type = "Loamy" then 6.5
  else if soil_type = "Clay" then 7.2
  else if soil_type = "Sandy" then 6.8
  else if soil_type = "Rocky" then 7.5
  else if soil_type = "Mountain Soil" then 6.3
  else if soil_type = "Podzol" then 5
  else if soil_type = "Tundra" then 5.5
  else 6.5

/-- `calculate_soil_ph(soil_type, climate_data)`
(= `LandAnalysisService._calculate_soil_ph`); only `humidity` is read from
the climate dict, so it is passed directly. -/
def calculate_soil_ph (soil_type : String) (humidity : ℚ) : ℚ :=
  let ph := base_ph_table soil_type
  let ph := if humidity > 70 then ph - 0.3 else if humidity < 40 then ph + 0.3 else ph
  pyRound 1 ph

/-- The NDVI value both implementations compute before history bias and
rounding: latitude-band base, temperature/humidity adjustment, longitude
variation, clamped to [0, 1]. -/
def ndvi_pre (latitude longitude temperature humidity : ℚ) : ℚ :=
  let abs_lat := |latitude|
  let base_ndvi :=
    if abs_lat < 10 then 0.6
    else if abs_lat < 23.5 then 0.5
    else if abs_lat < 35 then 0.4
    else if abs_lat < 50 then 0.35
    else 0.2
  let base_ndvi :=
    if temperature > 25 ∧ humidity > 60 then base_ndvi + 0.1
    else if temperature < 10 ∨ humidity < 30 then base_ndvi - 0.15
    else base_ndvi
  let variation := pyMod |longitude| 10 * 0.02
  max 0 (min 1 (base_ndvi + variation - 0.1))

/-- `projects.calculate_ndvi_estimate(latitude, longitude, climate_data)`. -/
def calculate_ndvi_estimate (latitude longitude temperature humidity : ℚ) : ℚ :=
  pyRound 2 (ndvi_pre latitude longitude temperature humidity)

/-- `LandAnalysisService._estimate_ndvi`: like `calculate_ndvi_estimate` but
biased ±0.03 (clamped into [0, 1]) by the recent temperature series of the
climate history when one is available (`temps = []` models an absent or empty
series). -/
def estimate_ndvi_api (latitude longitude temperature humidity : ℚ)
    (temps : List ℚ) : ℚ :=
  let ndvi := ndvi_pre latitude longitude temperature humidity
  let ndvi :=
    match temps with
    | [] => ndvi
    | t :: ts =>
      let recent := (t :: ts).getLast (List.cons_ne_nil t ts)
      let mean_recent := (t :: ts).sum / ((t :: ts).length : ℚ)
      if recent > mean_recent + 2 then min 1 (ndvi + 0.03)
      else if recent < mean_recent - 2 then max 0 (ndvi - 0.03)
      else ndvi
  pyRound 2 ndvi

/-- The `base_rainfall` dict with its `.get(_, 800)` default. -/
def base_rainfall_table (climate_zone : String) : ℚ :=
  if climate_zone = "Equatorial" then 2500
  else if climate_zone = "Tropical" then 1800
  else if climate_zone = "Subtropical" then 1000
  else if climate_zone = "Warm Temperate" then 800
  else if climate_zone = "Cool Temperate" then 700
  else if climate_zone = "Subpolar" then 500
  else if climate_zone = "Polar" then 250
  else 800

/-- `estimate_annual_rainfall(climate_zone, humidity, longitude)`
(= `LandAnalysisService._estimate_annual_rainfall`). -/
def estimate_annual_rainfall (climate_zone : String) (humidity longitude : ℚ) : ℤ :=
  let rainfall := base_rainfall_table climate_zone
  let rainfall :=
    if humidity > 70 then rainfall * 1.3
    else if humidity < 40 then rainfall * 0.6
    else rainfall
  let rainfall := rainfall + pyMod |longitude| 15 * 20
  pyTrunc rainfall

/-- The degradation score of `assess_land_degradation`: NDVI band points,
plus 1 for out-of-band pH, plus 1 for large area. -/
def degradation_score (ndvi soil_ph area_hectares : ℚ) : ℤ :=
  (if ndvi < 0.2 then 4 else if ndvi < 0.35 then 3 else if ndvi < 0.5 then 2 else 1)
    + (if soil_ph < 5 ∨ soil_ph > 8.5 then 1 else 0)
    + (if area_hectares > 100 then 1 else 0)

/-- `assess_land_degradation(ndvi, soil_ph, area_hectares)`
(= `LandAnalysisService._assess_degradation`). -/
def assess_land_degradation (ndvi soil_ph area_hectares : ℚ) : String :=
  let score := degradation_score ndvi soil_ph area_hectares
  if score ≥ 5 then "critical"
  else if score ≥ 4 then "severe"
  else if score ≥ 2 then "moderate"
  else "minimal"

/-! ## Recommendation generator (`projects.generate_recommendations`) -/

/-- The `crops_db` dict of `projects.generate_recommendations`; `none` models
a missing key. -/
def crops_db (climate_zone : String) : Option (List String) :=
  if climate_zone = "Equatorial" then
    some ["Rice", "Bananas", "Cassava", "Yams", "Cocoa", "Coffee"]
  else if climate_zone = "Tropical" then
    some ["Maize", "Beans", "Cassava", "Sweet Potato", "Millet", "Sorghum"]
  else if climate_zone = "Subtropical" then
    some ["Wheat", "Maize", "Citrus", "Grapes", "Cotton", "Rice"]
  else if climate_zone = "Warm Temperate" then
    some ["Wheat", "Barley", "Potato", "Apple", "Cherry", "Corn"]
  else if climate_zone = "Cool Temperate" then
    some ["Oats", "Barley", "Potato", "Cabbage", "Berries", "Rye"]
  else if climate_zone = "Subpolar" then
    some ["Barley", "Potato", "Root Vegetables", "Hardy Grasses"]
  else if climate_zone = "Polar" then
    some ["Hardy Grasses", "Moss"]
  else none

/-- The `trees_db` dict of `projects.generate_recommendations`. -/
def trees_db (climate_zone : String) : Option (List String) :=
  if climate_zone = "Equatorial" then
    some ["Mahogany", "Teak", "Rubber", "Oil Palm", "Bamboo"]
  else if climate_zone = "Tropical" then
    some ["Acacia", "Neem", "Mango", "Moringa", "Grevillea", "Eucalyptus"]
  else if climate_zone = "Subtropical" then
    some ["Oak", "Citrus", "Olive", "Pine", "Cypress"]
  else if climate_zone = "Warm Temperate" then
    some ["Oak", "Maple", "Ash", "Pine", "Walnut"]
  else if climate_zone = "Cool Temperate" then
    some ["Spruce", "Fir", "Birch", "Alder", "Larch"]
  else if climate_zone = "Subpolar" then
    some ["Birch", "Willow", "Alder", "Hardy Conifers"]
  else if climate_zone = "Polar" then
    some ["Dwarf Willow", "Arctic Birch"]
  else none

/-- The `techniques_db` dict of `projects.generate_recommendations`. -/
def techniques_db (degradation_level : String) : Option (List String) :=
  if degradation_level = "minimal" then
    some ["Regular mulching and organic matter addition", "Crop rotation practices",
      "Water conservation techniques", "Integrated pest management"]
  else if degradation_level = "moderate" then
    some ["Contour farming and terracing", "Agroforestry integration",
      "Soil amendment with compost", "Cover cropping", "Erosion control structures"]
  else if degradation_level = "severe" then
    some ["Intensive afforestation program", "Deep tillage and soil loosening",
      "Gabion and stone wall construction", "Watershed management systems",
      "Biochar application", "Pioneer species planting"]
  else if degradation_level = "critical" then
    some ["Emergency restoration protocols", "Comprehensive soil remediation",
      "Mechanical intervention (ripping, subsoiling)",
      "Intensive irrigation system installation",
      "Rock dam and check dam construction", "Fast-growing pioneer species",
      "Professional consultation required"]
  else none

/-- The `timeline_map` dict (same in both modules). -/
def timeline_map (degradation_level : String) : Option ℤ :=
  if degradation_level = "minimal" then some 12
  else if degradation_level = "moderate" then some 24
  else if degradation_level = "severe" then some 36
  else if degradation_level = "critical" then some 48
  else none

/-- The `base_budget_per_ha` / `budget_map` dict (same in both modules). -/
def base_budget_per_ha (degradation_level : String) : Option ℚ :=
  if degradation_level = "minimal" then some 50000
  else if degradation_level = "moderate" then some 150000
  else if degradation_level = "severe" then some 350000
  else if degradation_level = "critical" then some 700000
  else none

/-- The budget computation shared by both generators: base tier (default
100000) with the ×1.5 irrigation surcharge below 600 mm, rounded to
2 decimals. -/
def budget_for (degradation_level : String) (annual_rainfall : ℚ) : ℚ :=
  let budget := (base_budget_per_ha degradation_level).getD 100000
  pyRound 2 (if annual_rainfall < 600 then budget * 1.5 else budget)

/-- The result dict of either recommendation generator. -/
structure Recommendations where
  crops : List String
  trees : List String
  techniques : List String
  timeline_months : ℤ
  budget_per_hectare : ℚ
deriving DecidableEq

/-- `projects.generate_recommendations(climate_zone, soil_type, soil_ph,
degradation_level, annual_rainfall)`.  The pH-adjustment branches index
`crops_db[climate_zone]` / `trees_db[climate_zone]` directly, which raises
`KeyError` on an unknown zone: that failure is modelled as `none`. -/
def generate_recommendations (climate_zone soil_type : String) (soil_ph : ℚ)
    (degradation_level : String) (annual_rainfall : ℚ) : Option Recommendations :=
  let adjusted : Option (Option (List String) × Option (List String)) :=
    if soil_ph < 5.5 then
      match crops_db climate_zone with
      | none => none
      | some cs =>
        some (some ((cs.filter (fun c => c ∉ ["Wheat", "Barley"])) ++
          ["Blueberries", "Cranberries"]), trees_db climate_zone)
    else if soil_ph > 7.5 then
      match trees_db climate_zone with
      | none => none
      | some ts =>
        some (crops_db climate_zone,
          some (if "Olive" ∈ ts then ts else ts ++ ["Date Palm"]))
    else some (crops_db climate_zone, trees_db climate_zone)
  match adjusted with
  | none => none
  | some (cs, ts) =>
    some { crops := cs.getD ["Consult local agronomist"]
           trees := ts.getD ["Consult local forester"]
           techniques := (techniques_db degradation_level).getD []
           timeline_months := (timeline_map degradation_level).getD 24
           budget_per_hectare := budget_for degradation_level annual_rainfall }

/-! ## Recommendation generator (`LandAnalysisService._generate_recommendations`) -/

/-- The `crops_db` dict of the api module: only five zones, no Subpolar/Polar. -/
def crops_db_api (climate_zone : String) : Option (List String) :=
  if climate_zone = "Equatorial" then
    some ["Rice", "Bananas", "Cassava", "Yams", "Cocoa", "Coffee"]
  else if climate_zone = "Tropical" then
    some ["Maize", "Beans", "Cassava", "Sweet Potato", "Millet", "Sorghum"]
  else if climate_zone = "Subtropical" then
    some ["Wheat", "Maize", "Citrus", "Grapes", "Cotton", "Rice"]
  else if climate_zone = "Warm Temperate" then
    some ["Wheat", "Barley", "Potato", "Apple", "Cherry", "Corn"]
  else if climate_zone = "Cool Temperate" then
    some ["Oats", "Barley", "Potato", "Cabbage", "Berries", "Rye"]
  else none

/-- The `trees_db` dict of the api module. -/
def trees_db_api (climate_zone : String) : Option (List String) :=
  if climate_zone = "Equatorial" then
    some ["Mahogany", "Teak", "Rubber", "Oil Palm", "Bamboo"]
  else if climate_zone = "Tropical" then
    some ["Acacia", "Neem", "Mango", "Moringa", "Grevillea", "Eucalyptus"]
  else if climate_zone = "Subtropical" then
    some ["Oak", "Citrus", "Olive", "Pine", "Cypress"]
  else if climate_zone = "Warm Temperate" then
    some ["Oak", "Maple", "Ash", "Pine", "Walnut"]
  else if climate_zone = "Cool Temperate" then
    some ["Spruce", "Fir", "Birch", "Alder", "Larch"]
  else none

/-- The `techniques_db` dict of the api module (shorter tier lists). -/
def techniques_db_api (degradation_level : String) : Option (List String) :=
  if degradation_level = "minimal" then
    some ["Regular mulching and organic matter addition", "Crop rotation practices",
      "Water conservation techniques"]
  else if degradation_level = "moderate" then
    some ["Contour farming and terracing", "Agroforestry integration",
      "Soil amendment with compost", "Cover cropping"]
  else if degradation_level = "severe" then
    some ["Intensive afforestation program", "Deep tillage and soil loosening",
      "Watershed management systems", "Biochar application"]
  else if degradation_level = "critical" then
    some ["Emergency restoration protocols", "Comprehensive soil remediation",
      "Intensive irrigation system installation", "Professional consultation required"]
  else none

/-- `LandAnalysisService._generate_recommendations(climate_zone, soil_type,
soil_ph, degradation, rainfall)`: total, no pH adjustment, truncates to 5
inside the generator.  `soil_type` and `soil_ph` are accepted but unused. -/
def generate_recommendations_api (climate_zone soil_type : String) (soil_ph : ℚ)
    (degradation : String) (rainfall : ℚ) : Recommendations :=
  { crops := ((crops_db_api climate_zone).getD ["Consult agronomist"]).take 5
    trees := ((trees_db_api climate_zone).getD ["Consult forester"]).take 5
    techniques := (techniques_db_api degradation).getD []
    timeline_months := (timeline_map degradation).getD 24
    budget_per_hectare := budget_for degradation rainfall }

/-! ## Land analysis pipeline (`projects.comprehensive_land_analysis`) -/

/-- `projects.soil_fertility` classification (step 8 of
`comprehensive_land_analysis`, = `LandAnalysisService._calculate_fertility`). -/
def soil_fertility_of (soil_ph ndvi : ℚ) : String :=
  if 6 ≤ soil_ph ∧ soil_ph ≤ 7.5 ∧ ndvi > 0.5 then "high"
  else if ((5.5 ≤ soil_ph ∧ soil_ph < 6) ∨ (7.5 < soil_ph ∧ soil_ph ≤ 8)) ∧ ndvi > 0.35
    then "medium"
  else "low"

/-- The analysis dict assembled by `comprehensive_land_analysis`. -/
structure LandAnalysis where
  soil_type : String
  soil_ph : ℚ
  soil_fertility : String
  climate_zone : String
  annual_rainfall : ℤ
  temperature : ℚ
  humidity : ℚ
  elevation : ℚ
  vegetation_index : ℚ
  land_degradation_level : String
  recommended_crops : List String
  recommended_trees : List String
  restoration_techniques : List String
  estimated_timeline_months : ℤ
  estimated_budget : ℚ
deriving DecidableEq

/-- `projects.comprehensive_land_analysis(latitude, longitude, area_hectares)`.
The two network reads are modelled as parameters: `fetched_climate` (`none` =
weather fetch failed, triggering the fallback inside `get_real_climate_data`)
and `elevation` (the code substitutes 0 itself on failure).  The surrounding
`try/except` returns `None` on any exception, which here can only come from
the `KeyError` path of `generate_recommendations`. -/
def comprehensive_land_analysis (latitude longitude area_hectares : ℚ)
    (fetched_climate : Option ClimateData) (elevation : ℚ) : Option LandAnalysis :=
  let climate_data := get_real_climate_data fetched_climate latitude longitude
  let climate_zone := determine_climate_zone latitude climate_data.temperature
  let annual_rainfall := estimate_annual_rainfall climate_zone climate_data.humidity longitude
  let soil_type := analyze_soil_type latitude longitude elevation
  let soil_ph := calculate_soil_ph soil_type climate_data.humidity
  let ndvi := calculate_ndvi_estimate latitude longitude climate_data.temperature
    climate_data.humidity
  let degradation_level := assess_land_degradation ndvi soil_ph area_hectares
  let soil_fertility := soil_fertility_of soil_ph ndvi
  (generate_recommendations climate_zone soil_type soil_ph degradation_level
    (annual_rainfall : ℚ)).map fun recs =>
    { soil_type := soil_type
      soil_ph := soil_ph
      soil_fertility := soil_fertility
      climate_zone := climate_zone
      annual_rainfall := annual_rainfall
      temperature := climate_data.temperature
      humidity := climate_data.humidity
      elevation := elevation
      vegetation_index := ndvi
      land_degradation_level := degradation_level
      recommended_crops := recs.crops.take 5
      recommended_trees := recs.trees.take 5
      restoration_techniques := recs.techniques
      estimated_timeline_months := recs.timeline_months
      estimated_budget := recs.budget_per_hectare * area_hectares }

/-- The JSON body of a `POST /api/analyze` request: each required field is
either present (`some`) or missing (`none`). -/
structure AnalyzeRequest where
  latitude : Option ℚ
  longitude : Option ℚ
  area_hectares : Option ℚ

/-- The three response shapes of `projects.api_analyze_location` (after the
session check): 400 missing-fields, 500 analysis-failed, or 200 success. -/
inductive AnalyzeResponse where
  | missing_fields
  | analysis_failed
  | success (analysis : LandAnalysis)
deriving DecidableEq

/-- Whether an `AnalyzeResponse` is the 200 success shape. -/
def AnalyzeResponse.is_success : AnalyzeResponse → Bool
  | .success _ => true
  | _ => false

/-- `projects.api_analyze_location`: checks only that the three required
fields are present, then runs `comprehensive_land_analysis` on them. -/
def api_analyze_location (req : AnalyzeRequest) (fetched_climate : Option ClimateData)
    (elevation : ℚ) : AnalyzeResponse :=
  match req.latitude, req.longitude, req.area_hectares with
  | some lat, some lon, some area =>
    match comprehensive_land_analysis lat lon area fetched_climate elevation with
    | none => .analysis_failed
    | some a => .success a
  | _, _, _ => .missing_fields

/-! ## NASA POWER climate-history processing
(`NASAPowerAPI._process_climate_data`) -/

/-- The key ordering used by `ordered_series`: Python `sorted` on the
date-string keys of a parameter dict. -/
abbrev keyLe (a b : String × ℚ) : Prop := a.1 ≤ b.1

instance : DecidableRel keyLe := fun a b => inferInstanceAs (Decidable (a.1 ≤ b.1))

instance : IsTotal (String × ℚ) keyLe := ⟨fun a b => le_total a.1 b.1⟩

instance : IsTrans (String × ℚ) keyLe := ⟨fun _ _ _ => le_trans⟩

/-- `ordered_series(param_name)`: sort a date-keyed series ascending by key
and split into date and value lists.  Python's `sorted` is a stable ascending
sort, modelled by `List.insertionSort`. -/
def ordered_series (series : List (String × ℚ)) : List String × List ℚ :=
  let items := List.insertionSort keyLe series
  (items.map Prod.fst, items.map Prod.snd)

/-- The per-metric summary produced by `safe_stats`. -/
structure SeriesStats where
  avg : ℚ
  min : ℚ
  max : ℚ
  current : ℚ
deriving DecidableEq

/-- `safe_stats(arr)`: zeros on an empty list, else avg/min/max and the last
element as `current`. -/
def safe_stats (arr : List ℚ) : SeriesStats :=
  if arr.isEmpty then { avg := 0, min := 0, max := 0, current := 0 }
  else
    { avg := arr.sum / (arr.length : ℚ)
      min := (arr.min?).getD 0
      max := (arr.max?).getD 0
      current := arr.getLastD 0 }

/-- The `rainfall` aggregate of the processed result. -/
structure RainfallStats where
  total : ℚ
  avg_daily : ℚ
  days_with_rain : ℕ
deriving DecidableEq

/-- The `humidity` aggregate of the processed result. -/
structure HumidityStats where
  avg : ℚ
  current : ℚ
deriving DecidableEq

/-- The `time_series` block of the processed result. -/
structure TimeSeries where
  dates : List String
  temperature : List ℚ
  rainfall : List ℚ
  humidity : List ℚ
  wind_speed : List ℚ
  solar_radiation : List ℚ
deriving DecidableEq

/-- The processed climate history returned by `_process_climate_data`. -/
structure ClimateHistory where
  temperature : SeriesStats
  rainfall : RainfallStats
  humidity : HumidityStats
  wind_speed_avg : ℚ
  solar_radiation_avg : ℚ
  time_series : TimeSeries
deriving DecidableEq

/-- `NASAPowerAPI._process_climate_data`, given the five parameter series of
the payload (each a date-keyed map in arbitrary key order; a missing
parameter is the empty list).  The empty-`parameter`/malformed-payload `None`
paths happen before/around this computation and are not modelled here. -/
def process_climate_data (t2m prectotcorr rh2m ws2m allsky : List (String × ℚ)) :
    ClimateHistory :=
  let dates_t2m := (ordered_series t2m).1
  let temps := (ordered_series t2m).2
  let rainfall := (ordered_series prectotcorr).2
  let humidity := (ordered_series rh2m).2
  let wind_speed := (ordered_series ws2m).2
  let solar_rad := (ordered_series allsky).2
  { temperature := safe_stats temps
    rainfall :=
      { total := rainfall.sum
        avg_daily := if rainfall.isEmpty then 0 else rainfall.sum / (rainfall.length : ℚ)
        days_with_rain := rainfall.countP (fun r => 0 < r) }
    humidity :=
      { avg := if humidity.isEmpty then 0 else humidity.sum / (humidity.length : ℚ)
        current := humidity.getLastD 0 }
    wind_speed_avg := if wind_speed.isEmpty then 0 else wind_speed.sum / (wind_speed.length : ℚ)
    solar_radiation_avg := if solar_rad.isEmpty then 0 else solar_rad.sum / (solar_rad.length : ℚ)
    time_series :=
      { dates := dates_t2m
        temperature := temps
        rainfall := rainfall
        humidity := humidity
        wind_speed := wind_speed
        solar_radiation := solar_rad } }

/-! ## Helper lemmas -/

/-- The seven climate zones the classifier can produce. -/
def known_zones : List String :=
  ["Equatorial", "Tropical", "Subtropical", "Warm Temperate", "Cool Temperate",
   "Subpolar", "Polar"]

lemma determine_climate_zone_mem (latitude temperature : ℚ) :
    determine_climate_zone latitude temperature ∈ known_zones := by
  simp only [determine_climate_zone, known_zones]
  split_ifs <;> simp

lemma crops_db_isSome_iff (z : String) : (crops_db z).isSome ↔ z ∈ known_zones := by
  unfold crops_db
  split_ifs <;> simp_all [known_zones]

lemma trees_db_isSome_iff (z : String) : (trees_db z).isSome ↔ z ∈ known_zones := by
  unfold trees_db
  split_ifs <;> simp_all [known_zones]

/-- Unfolding of `generate_recommendations` into its three pH branches. -/
lemma generate_recommendations_spec (z st : String) (ph : ℚ) (deg : String) (rf : ℚ) :
    generate_recommendations z st ph deg rf =
      (if ph < 5.5 then
        match crops_db z with
        | none => none
        | some cs =>
          some { crops := (cs.filter (fun c => c ∉ ["Wheat", "Barley"])) ++
                   ["Blueberries", "Cranberries"]
                 trees := (trees_db z).getD ["Consult local forester"]
                 techniques := (techniques_db deg).getD []
                 timeline_months := (timeline_map deg).getD 24
                 budget_per_hectare := budget_for deg rf }
      else if ph > 7.5 then
        match trees_db z with
        | none => none
        | some ts =>
          some { crops := (crops_db z).getD ["Consult local agronomist"]
                 trees := if "Olive" ∈ ts then ts else ts ++ ["Date Palm"]
                 techniques := (techniques_db deg).getD []
                 timeline_months := (timeline_map deg).getD 24
                 budget_per_hectare := budget_for deg rf }
      else
        some { crops := (crops_db z).getD ["Consult local agronomist"]
               trees := (trees_db z).getD ["Consult local forester"]
               techniques := (techniques_db deg).getD []
               timeline_months := (timeline_map deg).getD 24
               budget_per_hectare := budget_for deg rf }) := by
  unfold generate_recommendations
  split_ifs with h1 h2
  · rcases crops_db z with _ | cs <;> rfl
  · rcases trees_db z with _ | ts <;> rfl
  · rfl

lemma gen_some_of_mem (z st : String) (ph : ℚ) (deg : String) (rf : ℚ)
    (hz : z ∈ known_zones) :
    ∃ r, generate_recommendations z st ph deg rf = some r := by
  have hc := (crops_db_isSome_iff z).mpr hz
  have ht := (trees_db_isSome_iff z).mpr hz
  rw [generate_recommendations_spec]
  rcases hcs : crops_db z with _ | cs
  · rw [hcs] at hc; simp at hc
  rcases hts : trees_db z with _ | ts
  · rw [hts] at ht; simp at ht
  split_ifs <;> exact ⟨_, rfl⟩

/-! ## Claim theorems -/

/-- C8: the climate-zone classifier follows the absolute-latitude thresholds
(>66.5 Polar, >60 Subpolar, >45 Warm/Cool Temperate by temperature>20,
>30 Subtropical/Warm Temperate by temperature>25, >23.5 Tropical, else
Equatorial), each boundary half-open on the upper side; latitude exactly 66.5
is Subpolar, not Polar. -/
theorem claim_C8 (latitude temperature : ℚ) :
    determine_climate_zone latitude temperature =
      (if 66.5 < |latitude| then "Polar"
       else if 60 < |latitude| then "Subpolar"
       else if 45 < |latitude| then
         (if 20 < temperature then "Warm Temperate" else "Cool Temperate")
       else if 30 < |latitude| then
         (if 25 < temperature then "Subtropical" else "Warm Temperate")
       else if 23.5 < |latitude| then "Tropical"
       else "Equatorial") ∧
    determine_climate_zone 66.5 temperature = "Subpolar" := by
  constructor
  · rfl
  · unfold determine_climate_zone
    rw [abs_of_nonneg (by norm_num : (0 : ℚ) ≤ 66.5)]
    norm_num

/-- C7: the degradation score is the NDVI band points (4 if ndvi<0.2, 3 if
<0.35, 2 if <0.5, else 1) plus 1 if pH is outside [5.0, 8.5] plus 1 if
area>100 ha, and the level is critical iff score≥5, severe iff score=4,
moderate iff score∈{2,3}, else minimal. -/
theorem claim_C7 (ndvi soil_ph area_hectares : ℚ) :
    degradation_score ndvi soil_ph area_hectares =
      (if ndvi < 0.2 then 4 else if ndvi < 0.35 then 3 else if ndvi < 0.5 then 2 else 1)
        + (if soil_ph < 5 ∨ soil_ph > 8.5 then 1 else 0)
        + (if area_hectares > 100 then 1 else 0) ∧
    assess_land_degradation ndvi soil_ph area_hectares =
      (if 5 ≤ degradation_score ndvi soil_ph area_hectares then "critical"
       else if degradation_score ndvi soil_ph area_hectares = 4 then "severe"
       else if degradation_score ndvi soil_ph area_hectares = 2 ∨
         degradation_score ndvi soil_ph area_hectares = 3 then "moderate"
       else "minimal") := by
  refine ⟨rfl, ?_⟩
  have hb : 1 ≤ degradation_score ndvi soil_ph area_hectares ∧
      degradation_score ndvi soil_ph area_hectares ≤ 6 := by
    unfold degradation_score
    split_ifs <;> norm_num
  simp only [assess_land_degradation]
  split_ifs <;> first | rfl | omega

lemma pyRound_mem (n : ℕ) (x lo hi : ℚ) (a b : ℤ)
    (hla : (a : ℚ) = lo * 10 ^ n) (hhb : (b : ℚ) = hi * 10 ^ n)
    (hxl : lo ≤ x) (hxh : x ≤ hi) :
    lo ≤ pyRound n x ∧ pyRound n x ≤ hi := by
  have h10 : (0 : ℚ) < 10 ^ n := by positivity
  constructor
  · have h := le_pyRound n x a
      (by rw [hla]; exact mul_le_mul_of_nonneg_right hxl (le_of_lt h10))
    rwa [hla, mul_div_assoc, div_self (ne_of_gt h10), mul_one] at h
  · have h := pyRound_le n x b
      (by rw [hhb]; exact mul_le_mul_of_nonneg_right hxh (le_of_lt h10))
    rwa [hhb, mul_div_assoc, div_self (ne_of_gt h10), mul_one] at h

lemma ndvi_pre_mem (latitude longitude temperature humidity : ℚ) :
    0 ≤ ndvi_pre latitude longitude temperature humidity ∧
    ndvi_pre latitude longitude temperature humidity ≤ 1 := by
  simp only [ndvi_pre]
  constructor
  · exact le_max_left 0 _
  · exact max_le (by norm_num) (min_le_left 1 _)

lemma base_ph_table_mem (soil_type : String) :
    5 ≤ base_ph_table soil_type ∧ base_ph_table soil_type ≤ 7.5 := by
  unfold base_ph_table
  split_ifs <;> norm_num

lemma calculate_soil_ph_mem (soil_type : String) (humidity : ℚ) :
    4.7 ≤ calculate_soil_ph soil_type humidity ∧
    calculate_soil_ph soil_type humidity ≤ 7.8 := by
  obtain ⟨hb1, hb2⟩ := base_ph_table_mem soil_type
  simp only [calculate_soil_ph]
  split_ifs <;>
    exact pyRound_mem 1 _ 4.7 7.8 47 78 (by norm_num) (by norm_num)
      (by linarith) (by linarith)

lemma calculate_ndvi_estimate_mem (latitude longitude temperature humidity : ℚ) :
    0 ≤ calculate_ndvi_estimate latitude longitude temperature humidity ∧
    calculate_ndvi_estimate latitude longitude temperature humidity ≤ 1 := by
  obtain ⟨h0, h1⟩ := ndvi_pre_mem latitude longitude temperature humidity
  unfold calculate_ndvi_estimate
  exact pyRound_mem 2 _ 0 1 0 100 (by norm_num) (by norm_num) h0 h1

lemma estimate_ndvi_api_mem (latitude longitude temperature humidity : ℚ)
    (temps : List ℚ) :
    0 ≤ estimate_ndvi_api latitude longitude temperature humidity temps ∧
    estimate_ndvi_api latitude longitude temperature humidity temps ≤ 1 := by
  obtain ⟨h0, h1⟩ := ndvi_pre_mem latitude longitude temperature humidity
  have key : ∀ y : ℚ, 0 ≤ y → y ≤ 1 → 0 ≤ pyRound 2 y ∧ pyRound 2 y ≤ 1 :=
    fun y hy0 hy1 => pyRound_mem 2 y 0 1 0 100 (by norm_num) (by norm_num) hy0 hy1
  unfold estimate_ndvi_api
  rcases temps with _ | ⟨t, ts⟩
  · exact key _ h0 h1
  · dsimp only
    split_ifs
    · exact key _ (le_min (by norm_num) (by linarith)) (min_le_left 1 _)
    · exact key _ (le_max_left 0 _) (max_le (by norm_num) (by linarith))
    · exact key _ h0 h1

lemma base_rainfall_table_mem (climate_zone : String) :
    250 ≤ base_rainfall_table climate_zone := by
  unfold base_rainfall_table
  split_ifs <;> norm_num

lemma estimate_annual_rainfall_nonneg (climate_zone : String) (humidity longitude : ℚ) :
    0 ≤ estimate_annual_rainfall climate_zone humidity longitude := by
  have hb := base_rainfall_table_mem climate_zone
  have hm := pyMod_nonneg |longitude| 15 (by norm_num)
  simp only [estimate_annual_rainfall]
  apply pyTrunc_nonneg
  split_ifs <;> nlinarith

lemma assess_land_degradation_mem (ndvi soil_ph area_hectares : ℚ) :
    assess_land_degradation ndvi soil_ph area_hectares ∈
      ["minimal", "moderate", "severe", "critical"] := by
  simp only [assess_land_degradation]
  split_ifs <;> simp

/-- C5: when the live weather fetch fails, `get_current_weather` still returns
the fully populated fallback `WeatherSnapshot`, whose temperature lies in
[−20, 45], for every latitude in [−90, 90] and longitude in [−180, 180]. -/
theorem claim_C5 (today : String) (latitude longitude : ℚ)
    (h1 : -90 ≤ latitude) (h2 : latitude ≤ 90)
    (h3 : -180 ≤ longitude) (h4 : longitude ≤ 180) :
    get_current_weather today latitude longitude none =
      get_fallback_weather today latitude longitude ∧
    -20 ≤ (get_current_weather today latitude longitude none).temperature ∧
    (get_current_weather today latitude longitude none).temperature ≤ 45 := by
  have hlo : (-20 : ℚ) ≤ max (min (30 - |latitude| * 0.6) 45) (-20) := le_max_right _ _
  have hhi : max (min (30 - |latitude| * 0.6) 45) (-20) ≤ 45 :=
    max_le (min_le_right _ _) (by norm_num)
  have hmem := pyRound_mem 1 (max (min (30 - |latitude| * 0.6) 45) (-20)) (-20) 45
    (-200) 450 (by norm_num) (by norm_num) hlo hhi
  exact ⟨rfl, hmem.1, hmem.2⟩

/-- C5 witness: the theorem applied at a forced-failure fetch over
(75, 10). -/
theorem claim_C5_witness :
    -20 ≤ (get_current_weather "2024-06-01" 75 10 none).temperature ∧
    (get_current_weather "2024-06-01" 75 10 none).temperature ≤ 45 :=
  ⟨(claim_C5 "2024-06-01" 75 10 (by norm_num) (by norm_num) (by norm_num)
      (by norm_num)).2.1,
   (claim_C5 "2024-06-01" 75 10 (by norm_num) (by norm_num) (by norm_num)
      (by norm_num)).2.2⟩

/-- C6: within the claimed coordinate ranges, NDVI (both the projects and the
api estimator) lies in [0, 1], soil pH in [0, 14], annual rainfall is a
non-negative integer, and the degradation level is one of the four levels. -/
theorem claim_C6 (latitude longitude elevation temperature humidity area_hectares : ℚ)
    (temps : List ℚ)
    (h1 : -90 ≤ latitude) (h2 : latitude ≤ 90)
    (h3 : -180 ≤ longitude) (h4 : longitude ≤ 180) :
    (0 ≤ calculate_ndvi_estimate latitude longitude temperature humidity ∧
      calculate_ndvi_estimate latitude longitude temperature humidity ≤ 1) ∧
    (0 ≤ estimate_ndvi_api latitude longitude temperature humidity temps ∧
      estimate_ndvi_api latitude longitude temperature humidity temps ≤ 1) ∧
    (0 ≤ calculate_soil_ph (analyze_soil_type latitude longitude elevation) humidity ∧
      calculate_soil_ph (analyze_soil_type latitude longitude elevation) humidity ≤ 14) ∧
    0 ≤ estimate_annual_rainfall (determine_climate_zone latitude temperature)
      humidity longitude ∧
    assess_land_degradation (calculate_ndvi_estimate latitude longitude temperature humidity)
      (calculate_soil_ph (analyze_soil_type latitude longitude elevation) humidity)
      area_hectares ∈ ["minimal", "moderate", "severe", "critical"] := by
  obtain ⟨hp1, hp2⟩ := calculate_soil_ph_mem (analyze_soil_type latitude longitude elevation)
    humidity
  exact ⟨calculate_ndvi_estimate_mem latitude longitude temperature humidity,
    estimate_ndvi_api_mem latitude longitude temperature humidity temps,
    ⟨by linarith, by linarith⟩,
    estimate_annual_rainfall_nonneg _ humidity longitude,
    assess_land_degradation_mem _ _ area_hectares⟩

/-- C6 witness: the theorem applied at (0.5, 34), elevation 1200, 27 °C,
75 % humidity, 10 ha, empty recent-temperature series. -/
theorem claim_C6_witness :
    (0 ≤ calculate_ndvi_estimate 0.5 34 27 75 ∧ calculate_ndvi_estimate 0.5 34 27 75 ≤ 1) ∧
    (0 ≤ calculate_soil_ph (analyze_soil_type 0.5 34 1200) 75 ∧
      calculate_soil_ph (analyze_soil_type 0.5 34 1200) 75 ≤ 14) :=
  ⟨(claim_C6 0.5 34 1200 27 75 10 [] (by norm_num) (by norm_num) (by norm_num)
      (by norm_num)).1,
   (claim_C6 0.5 34 1200 27 75 10 [] (by norm_num) (by norm_num) (by norm_num)
      (by norm_num)).2.2.1⟩

lemma budget_for_eq (deg : String) (rf base : ℚ) (k1 k2 : ℤ)
    (hb : (base_budget_per_ha deg).getD 100000 = base)
    (h1 : (k1 : ℚ) = base * 1.5) (h2 : (k2 : ℚ) = base) :
    budget_for deg rf = if rf < 600 then base * 1.5 else base := by
  simp only [budget_for]
  rw [hb]
  split_ifs
  · rw [← h1]
    exact pyRound_intCast 2 k1
  · rw [← h2]
    exact pyRound_intCast 2 k2

lemma gen_fields_of_some {z st deg : String} {ph rf : ℚ} {r : Recommendations}
    (h : generate_recommendations z st ph deg rf = some r) :
    r.budget_per_hectare = budget_for deg rf ∧
    r.techniques = (techniques_db deg).getD [] ∧
    r.timeline_months = (timeline_map deg).getD 24 := by
  rw [generate_recommendations_spec] at h
  split_ifs at h
  · rcases hcs : crops_db z with _ | cs <;> rw [hcs] at h
    · cases h
    · cases h
      exact ⟨rfl, rfl, rfl⟩
  · rcases hts : trees_db z with _ | ts <;> rw [hts] at h
    · cases h
    · cases h
      exact ⟨rfl, rfl, rfl⟩
  · cases h
    exact ⟨rfl, rfl, rfl⟩

lemma comprehensive_some (latitude longitude area_hectares : ℚ)
    (fc : Option ClimateData) (elevation : ℚ) :
    ∃ a, comprehensive_land_analysis latitude longitude area_hectares fc elevation
      = some a := by
  simp only [comprehensive_land_analysis]
  obtain ⟨r, hr⟩ := gen_some_of_mem
    (determine_climate_zone latitude (get_real_climate_data fc latitude longitude).temperature)
    (analyze_soil_type latitude longitude elevation)
    (calculate_soil_ph (analyze_soil_type latitude longitude elevation)
      (get_real_climate_data fc latitude longitude).humidity)
    (assess_land_degradation
      (calculate_ndvi_estimate latitude longitude
        (get_real_climate_data fc latitude longitude).temperature
        (get_real_climate_data fc latitude longitude).humidity)
      (calculate_soil_ph (analyze_soil_type latitude longitude elevation)
        (get_real_climate_data fc latitude longitude).humidity)
      area_hectares)
    ((estimate_annual_rainfall
      (determine_climate_zone latitude (get_real_climate_data fc latitude longitude).temperature)
      (get_real_climate_data fc latitude longitude).humidity longitude : ℤ) : ℚ)
    (determine_climate_zone_mem latitude _)
  rw [hr]
  exact ⟨_, rfl⟩

lemma comprehensive_inv {latitude longitude area_hectares : ℚ}
    {fc : Option ClimateData} {elevation : ℚ} {a : LandAnalysis}
    (h : comprehensive_land_analysis latitude longitude area_hectares fc elevation
      = some a) :
    ∃ r, generate_recommendations a.climate_zone a.soil_type a.soil_ph
        a.land_degradation_level (a.annual_rainfall : ℚ) = some r ∧
      a.recommended_crops = r.crops.take 5 ∧
      a.recommended_trees = r.trees.take 5 ∧
      a.restoration_techniques = r.techniques ∧
      a.estimated_budget = r.budget_per_hectare * area_hectares := by
  simp only [comprehensive_land_analysis, Option.map_eq_some'] at h
  obtain ⟨recs, hg, ha⟩ := h
  subst ha
  exact ⟨recs, hg, rfl, rfl, rfl, rfl⟩

/-- C10: the per-hectare budget is the fixed tier base (minimal 50000,
moderate 150000, severe 350000, critical 700000), ×1.5 exactly when annual
rainfall < 600 mm; severe with 400 mm gives 525000; and the analysis's
`estimated_budget` is `budget_per_hectare × area_hectares`. -/
theorem claim_C10 (degradation_level : String) (annual_rainfall : ℚ)
    (hdeg : degradation_level ∈ ["minimal", "moderate", "severe", "critical"]) :
    budget_for degradation_level annual_rainfall =
      (if annual_rainfall < 600 then 3 / 2 else 1) *
        (if degradation_level = "minimal" then 50000
         else if degradation_level = "moderate" then 150000
         else if degradation_level = "severe" then 350000
         else 700000) ∧
    budget_for "severe" 400 = 525000 ∧
    (∀ (latitude longitude area_hectares : ℚ) (fc : Option ClimateData)
        (elevation : ℚ) (a : LandAnalysis),
      comprehensive_land_analysis latitude longitude area_hectares fc elevation = some a →
      a.estimated_budget =
        budget_for a.land_degradation_level (a.annual_rainfall : ℚ) * area_hectares) := by
  refine ⟨?_, ?_, ?_⟩
  · fin_cases hdeg
    · rw [budget_for_eq "minimal" annual_rainfall 50000 75000 50000
        (by simp [base_budget_per_ha]) (by norm_num) (by norm_num)]
      simp only [String.reduceEq, reduceIte]
      split_ifs <;> norm_num
    · rw [budget_for_eq "moderate" annual_rainfall 150000 225000 150000
        (by simp [base_budget_per_ha]) (by norm_num) (by norm_num)]
      simp only [String.reduceEq, reduceIte]
      split_ifs <;> norm_num
    · rw [budget_for_eq "severe" annual_rainfall 350000 525000 350000
        (by simp [base_budget_per_ha]) (by norm_num) (by norm_num)]
      simp only [String.reduceEq, reduceIte]
      split_ifs <;> norm_num
    · rw [budget_for_eq "critical" annual_rainfall 700000 1050000 700000
        (by simp [base_budget_per_ha]) (by norm_num) (by norm_num)]
      simp only [String.reduceEq, reduceIte]
      split_ifs <;> norm_num
  · rw [budget_for_eq "severe" 400 350000 525000 350000
      (by simp [base_budget_per_ha]) (by norm_num) (by norm_num)]
    norm_num
  · intro latitude longitude area_hectares fc elevation a h
    obtain ⟨r, hg, _, _, _, hbud⟩ := comprehensive_inv h
    rw [hbud, (gen_fields_of_some hg).1]

/-- C10 witness: the theorem applied at degradation "severe" and 400 mm
rainfall, giving the surcharged budget 525000. -/
theorem claim_C10_witness : budget_for "severe" 400 = 525000 :=
  (claim_C10 "severe" 400 (by simp)).2.1

/-- C1 (counterexample to the claim as stated): a request with latitude 200
(far outside [−90, 90]) is not rejected as a validation error — the entry
point runs the full analysis and returns a 200 success with a complete
`LandAnalysis`. -/
theorem claim_C1_counterexample :
    AnalyzeResponse.is_success (api_analyze_location ⟨some 200, some 0, some 5⟩ none 0)
      = true := by
  obtain ⟨a, ha⟩ := comprehensive_some 200 0 5 none 0
  simp [api_analyze_location, ha, AnalyzeResponse.is_success]

/-- C1 (amended): the entry point validates only field presence — it rejects
a call iff a required field is missing; any request with all three fields
present (including out-of-range coordinates and non-positive area) returns a
full `LandAnalysis` success. -/
theorem claim_C1 (req : AnalyzeRequest) (fc : Option ClimateData) (elevation : ℚ) :
    (api_analyze_location req fc elevation = AnalyzeResponse.missing_fields ↔
      req.latitude = none ∨ req.longitude = none ∨ req.area_hectares = none) ∧
    (∀ lat lon area : ℚ, req.latitude = some lat → req.longitude = some lon →
      req.area_hectares = some area →
      ∃ a, api_analyze_location req fc elevation = AnalyzeResponse.success a) := by
  obtain ⟨la, lo, ar⟩ := req
  constructor
  · rcases la with _ | lat
    · simp [api_analyze_location]
    · rcases lo with _ | lon
      · simp [api_analyze_location]
      · rcases ar with _ | area
        · simp [api_analyze_location]
        · obtain ⟨a, ha⟩ := comprehensive_some lat lon area fc elevation
          simp [api_analyze_location, ha]
  · intro lat lon area hla hlo har
    simp only at hla hlo har
    subst hla
    subst hlo
    subst har
    obtain ⟨a, ha⟩ := comprehensive_some lat lon area fc elevation
    exact ⟨a, by simp [api_analyze_location, ha]⟩

/-- C1 witness: the amended theorem applied at a fully populated request. -/
theorem claim_C1_witness :
    ∃ a, api_analyze_location ⟨some 1, some 36, some 10⟩ none 0
      = AnalyzeResponse.success a :=
  (claim_C1 ⟨some 1, some 36, some 10⟩ none 0).2 1 36 10 rfl rfl rfl

/-- C2 (counterexample to the claim as stated): (a) the api-module generator
applies no pH adjustment at all — at soil_ph 5.2 in Warm Temperate its
returned crops still begin with Wheat and Barley; (b) even in the
projects-module generator, pH 8 (> 7.5) in Subtropical appends no
alkaline-tolerant tree: the tree list is exactly the unadjusted catalog
(because Olive is already present). -/
theorem claim_C2_counterexample :
    (generate_recommendations_api "Warm Temperate" "Loamy" 5.2 "moderate" 1000).crops
      = ["Wheat", "Barley", "Potato", "Apple", "Cherry"] ∧
    generate_recommendations "Subtropical" "Loamy" 8 "moderate" 1000 = some
      { crops := ["Wheat", "Maize", "Citrus", "Grapes", "Cotton", "Rice"]
        trees := ["Oak", "Citrus", "Olive", "Pine", "Cypress"]
        techniques := ["Contour farming and terracing", "Agroforestry integration",
          "Soil amendment with compost", "Cover cropping", "Erosion control structures"]
        timeline_months := 24
        budget_per_hectare := 150000 } := by
  constructor
  · simp [generate_recommendations_api, crops_db_api]
  · rw [generate_recommendations_spec]
    rw [if_neg (by norm_num : ¬(8 : ℚ) < 5.5), if_pos (by norm_num : (8 : ℚ) > 7.5)]
    simp only [trees_db, crops_db, techniques_db, timeline_map, String.reduceEq, reduceIte]
    rw [budget_for_eq "moderate" 1000 150000 225000 150000 (by simp [base_budget_per_ha])
      (by norm_num) (by norm_num)]
    norm_num

/-- C2 (amended): in the projects-module generator, for every catalog zone,
pH < 5.5 removes Wheat/Barley and appends the acid-tolerant substitutes
(Blueberries, Cranberries), so Wheat and Barley are absent and a substitute
present; pH > 7.5 appends Date Palm only when Olive is not already in the
zone's tree catalog; the analysis truncates the adjusted lists to their first
5 entries in catalog order; and the api-module generator ignores pH
entirely. -/
theorem claim_C2 (zone soil_type degradation_level : String) (ph rainfall : ℚ)
    (hz : zone ∈ known_zones) :
    (ph < 5.5 → ∃ cs r, crops_db zone = some cs ∧
      generate_recommendations zone soil_type ph degradation_level rainfall = some r ∧
      r.crops = (cs.filter (fun c => c ∉ ["Wheat", "Barley"])) ++
        ["Blueberries", "Cranberries"] ∧
      "Wheat" ∉ r.crops ∧ "Barley" ∉ r.crops ∧ "Blueberries" ∈ r.crops) ∧
    (ph > 7.5 → ∃ ts r, trees_db zone = some ts ∧
      generate_recommendations zone soil_type ph degradation_level rainfall = some r ∧
      r.trees = (if "Olive" ∈ ts then ts else ts ++ ["Date Palm"])) ∧
    (∀ (latitude longitude area_hectares : ℚ) (fc : Option ClimateData)
        (elevation : ℚ) (a : LandAnalysis),
      comprehensive_land_analysis latitude longitude area_hectares fc elevation = some a →
      ∃ r, generate_recommendations a.climate_zone a.soil_type a.soil_ph
          a.land_degradation_level (a.annual_rainfall : ℚ) = some r ∧
        a.recommended_crops = r.crops.take 5 ∧ a.recommended_trees = r.trees.take 5) ∧
    (∀ ph' : ℚ, generate_recommendations_api zone soil_type ph degradation_level rainfall
      = generate_recommendations_api zone soil_type ph' degradation_level rainfall) := by
  have hc := (crops_db_isSome_iff zone).mpr hz
  have ht := (trees_db_isSome_iff zone).mpr hz
  rcases hcs : crops_db zone with _ | cs
  · rw [hcs] at hc; simp at hc
  rcases hts : trees_db zone with _ | ts
  · rw [hts] at ht; simp at ht
  refine ⟨?_, ?_, ?_, fun _ => rfl⟩
  · intro hph
    have hgen : generate_recommendations zone soil_type ph degradation_level rainfall
        = some
        { crops := (cs.filter (fun c => c ∉ ["Wheat", "Barley"])) ++
            ["Blueberries", "Cranberries"]
          trees := (trees_db zone).getD ["Consult local forester"]
          techniques := (techniques_db degradation_level).getD []
          timeline_months := (timeline_map degradation_level).getD 24
          budget_per_hectare := budget_for degradation_level rainfall } := by
      rw [generate_recommendations_spec, if_pos hph, hcs]
    exact ⟨cs, _, rfl, hgen, rfl, by simp, by simp, by simp⟩
  · intro hph
    have hgen : generate_recommendations zone soil_type ph degradation_level rainfall
        = some
        { crops := (crops_db zone).getD ["Consult local agronomist"]
          trees := if "Olive" ∈ ts then ts else ts ++ ["Date Palm"]
          techniques := (techniques_db degradation_level).getD []
          timeline_months := (timeline_map degradation_level).getD 24
          budget_per_hectare := budget_for degradation_level rainfall } := by
      rw [generate_recommendations_spec, if_neg (by linarith), if_pos hph, hts]
    exact ⟨ts, _, rfl, hgen, rfl⟩
  · intro latitude longitude area_hectares fc elevation a h
    obtain ⟨r, hg, hcrops, htrees, _, _⟩ := comprehensive_inv h
    exact ⟨r, hg, hcrops, htrees⟩

/-- C2 witness: the acid-pH branch of the amended theorem at soil_ph 5.2 in
Warm Temperate. -/
theorem claim_C2_witness :
    ∃ cs r, crops_db "Warm Temperate" = some cs ∧
      generate_recommendations "Warm Temperate" "Loamy" 5.2 "minimal" 1000 = some r ∧
      r.crops = (cs.filter (fun c => c ∉ ["Wheat", "Barley"])) ++
        ["Blueberries", "Cranberries"] ∧
      "Wheat" ∉ r.crops ∧ "Barley" ∉ r.crops ∧ "Blueberries" ∈ r.crops :=
  (claim_C2 "Warm Temperate" "Loamy" "minimal" 5.2 1000 (by simp [known_zones])).1
    (by norm_num)

/-- C3 (counterexample to the claim as stated): for a climate zone absent
from the catalogs combined with pH < 5.5, the projects-module generator does
not fall back to the sentinel lists — its `crops_db[climate_zone]` indexing
raises `KeyError` (modelled as `none`), so the call fails instead of
returning a result. -/
theorem claim_C3_counterexample :
    generate_recommendations "Mediterranean" "Loamy" 5.2 "moderate" 1000 = none := by
  rw [generate_recommendations_spec, if_pos (by norm_num : (5.2 : ℚ) < 5.5)]
  simp only [crops_db, String.reduceEq, reduceIte]

/-- C3 (amended): the projects-module generator succeeds iff the zone is a
catalog zone or pH lies in [5.5, 7.5]; for an unknown zone with pH in
[5.5, 7.5] it returns the "consult a professional" sentinel lists; an
unknown degradation level falls back to an empty technique list, timeline 24
and base budget 100000; and the api-module generator is total by
construction, with its own sentinel lists for unknown zones. -/
theorem claim_C3 (zone soil_type degradation_level : String) (ph rainfall : ℚ) :
    ((generate_recommendations zone soil_type ph degradation_level rainfall).isSome ↔
      zone ∈ known_zones ∨ (5.5 ≤ ph ∧ ph ≤ 7.5)) ∧
    (zone ∉ known_zones → 5.5 ≤ ph → ph ≤ 7.5 →
      ∃ r, generate_recommendations zone soil_type ph degradation_level rainfall = some r ∧
        r.crops = ["Consult local agronomist"] ∧ r.trees = ["Consult local forester"]) ∧
    (degradation_level ∉ ["minimal", "moderate", "severe", "critical"] →
      ∀ r, generate_recommendations zone soil_type ph degradation_level rainfall = some r →
        r.techniques = [] ∧ r.timeline_months = 24 ∧
        r.budget_per_hectare = (if rainfall < 600 then 150000 else 100000)) ∧
    (crops_db_api zone = none →
      (generate_recommendations_api zone soil_type ph degradation_level rainfall).crops
        = ["Consult agronomist"]) ∧
    (trees_db_api zone = none →
      (generate_recommendations_api zone soil_type ph degradation_level rainfall).trees
        = ["Consult forester"]) := by
  refine ⟨?_, ?_, ?_, ?_, ?_⟩
  · rw [generate_recommendations_spec]
    by_cases h1 : ph < 5.5
    · rw [if_pos h1]
      rcases hcs : crops_db zone with _ | cs
      · have hc := crops_db_isSome_iff zone
        rw [hcs] at hc
        simp only [Option.isSome_none, Bool.false_eq_true, false_iff] at hc
        simp only [Option.isSome_none, Bool.false_eq_true, false_iff]
        rintro (hmem | ⟨h5, _⟩)
        · exact hc hmem
        · linarith
      · have hc := crops_db_isSome_iff zone
        rw [hcs] at hc
        simp only [Option.isSome_some, true_iff] at hc
        simp [hc]
    · by_cases h2 : ph > 7.5
      · rw [if_neg h1, if_pos h2]
        rcases hts : trees_db zone with _ | ts
        · have ht := trees_db_isSome_iff zone
          rw [hts] at ht
          simp only [Option.isSome_none, Bool.false_eq_true, false_iff] at ht
          simp only [Option.isSome_none, Bool.false_eq_true, false_iff]
          rintro (hmem | ⟨_, h7⟩)
          · exact ht hmem
          · linarith
        · have ht := trees_db_isSome_iff zone
          rw [hts] at ht
          simp only [Option.isSome_some, true_iff] at ht
          simp [ht]
      · rw [if_neg h1, if_neg h2]
        simp only [Option.isSome_some, true_iff]
        right
        constructor <;> linarith
  · intro hzu h5 h7
    have hcs : crops_db zone = none := by
      rcases hcs : crops_db zone with _ | cs
      · rfl
      · exact absurd ((crops_db_isSome_iff zone).mp (by rw [hcs]; rfl)) hzu
    have hts : trees_db zone = none := by
      rcases hts : trees_db zone with _ | ts
      · rfl
      · exact absurd ((trees_db_isSome_iff zone).mp (by rw [hts]; rfl)) hzu
    have hgen : generate_recommendations zone soil_type ph degradation_level rainfall
        = some
        { crops := ["Consult local agronomist"]
          trees := ["Consult local forester"]
          techniques := (techniques_db degradation_level).getD []
          timeline_months := (timeline_map degradation_level).getD 24
          budget_per_hectare := budget_for degradation_level rainfall } := by
      rw [generate_recommendations_spec, if_neg (by linarith), if_neg (by linarith),
        hcs, hts]
      rfl
    exact ⟨_, hgen, rfl, rfl⟩
  · intro hdu r hr
    have htd : techniques_db degradation_level = none := by
      unfold techniques_db
      split_ifs with g1 g2 g3 g4 <;> simp_all
    have htl : timeline_map degradation_level = none := by
      unfold timeline_map
      split_ifs with g1 g2 g3 g4 <;> simp_all
    have hbb : base_budget_per_ha degradation_level = none := by
      unfold base_budget_per_ha
      split_ifs with g1 g2 g3 g4 <;> simp_all
    obtain ⟨hbud, htech, htime⟩ := gen_fields_of_some hr
    refine ⟨by rw [htech, htd]; rfl, by rw [htime, htl]; rfl, ?_⟩
    rw [hbud, budget_for_eq degradation_level rainfall 100000 150000 100000
      (by rw [hbb]; rfl) (by norm_num) (by norm_num)]
    split_ifs <;> norm_num
  · intro hc
    simp [generate_recommendations_api, hc]
  · intro ht
    simp [generate_recommendations_api, ht]

/-- C3 witness: the amended theorem's sentinel branch at the unknown zone
"Atlantis" with pH 6. -/
theorem claim_C3_witness :
    ∃ r, generate_recommendations "Atlantis" "Loamy" 6 "moderate" 1000 = some r ∧
      r.crops = ["Consult local agronomist"] ∧ r.trees = ["Consult local forester"] :=
  (claim_C3 "Atlantis" "Loamy" "moderate" 6 1000).2.1 (by simp [known_zones])
    (by norm_num) (by norm_num)

lemma ndvi_pre_lt (latitude longitude temperature humidity : ℚ) :
    ndvi_pre latitude longitude temperature humidity < 0.8 := by
  have hm1 := pyMod_lt |longitude| 10 (by norm_num)
  have hm0 := pyMod_nonneg |longitude| 10 (by norm_num)
  simp only [ndvi_pre]
  split_ifs <;>
  · apply max_lt (by norm_num)
    exact lt_of_le_of_lt (min_le_right 1 _) (by linarith)

/-- C9 (counterexample to the claim as stated): at latitude 75, longitude 0,
temperature −5, humidity 20, the pre-bias NDVI is exactly 0; with recent
temperature series [10, 2] (latest 2 is more than 2 below the mean 6) the
result is 0, not the claimed exact −0.03 bias (which would give −0.03): the
downward bias is clamped at 0. -/
theorem claim_C9_counterexample :
    ndvi_pre 75 0 (-5) 20 = 0 ∧
    estimate_ndvi_api 75 0 (-5) 20 [10, 2] = 0 ∧
    estimate_ndvi_api 75 0 (-5) 20 [10, 2] ≠ pyRound 2 (ndvi_pre 75 0 (-5) 20 - 0.03) := by
  have hpre : ndvi_pre 75 0 (-5) 20 = 0 := by
    norm_num [ndvi_pre, pyMod]
  have hmain : estimate_ndvi_api 75 0 (-5) 20 [10, 2] = 0 := by
    simp only [estimate_ndvi_api, hpre]
    norm_num [List.getLast]
    rw [pyRound_eq_intCast_div 2 _ 0 (by norm_num)]
    norm_num
  refine ⟨hpre, hmain, ?_⟩
  rw [hmain, hpre, pyRound_eq_intCast_div 2 _ (-3) (by norm_num)]
  norm_num

/-- C9 (amended): given a non-empty recent temperature series, the NDVI
result is `round2` of the pre-bias value plus exactly 0.03 when the latest
reading exceeds the series mean by more than 2 (never clamped, since the
pre-bias value is below 0.8), of `max 0 (pre − 0.03)` when the latest is
more than 2 below the mean (the downward bias is clamped at 0), and of the
unchanged pre-bias value otherwise; with no series no bias is applied; and
the result always lies in [0, 1]. -/
theorem claim_C9 (latitude longitude temperature humidity t : ℚ) (ts : List ℚ) :
    ((t :: ts).getLast (List.cons_ne_nil t ts) >
        (t :: ts).sum / ((t :: ts).length : ℚ) + 2 →
      estimate_ndvi_api latitude longitude temperature humidity (t :: ts)
        = pyRound 2 (ndvi_pre latitude longitude temperature humidity + 0.03)) ∧
    ((t :: ts).getLast (List.cons_ne_nil t ts) <
        (t :: ts).sum / ((t :: ts).length : ℚ) - 2 →
      estimate_ndvi_api latitude longitude temperature humidity (t :: ts)
        = pyRound 2 (max 0 (ndvi_pre latitude longitude temperature humidity - 0.03))) ∧
    ((t :: ts).sum / ((t :: ts).length : ℚ) - 2 ≤
        (t :: ts).getLast (List.cons_ne_nil t ts) →
      (t :: ts).getLast (List.cons_ne_nil t ts) ≤
        (t :: ts).sum / ((t :: ts).length : ℚ) + 2 →
      estimate_ndvi_api latitude longitude temperature humidity (t :: ts)
        = pyRound 2 (ndvi_pre latitude longitude temperature humidity)) ∧
    estimate_ndvi_api latitude longitude temperature humidity []
      = pyRound 2 (ndvi_pre latitude longitude temperature humidity) ∧
    (0 ≤ estimate_ndvi_api latitude longitude temperature humidity (t :: ts) ∧
      estimate_ndvi_api latitude longitude temperature humidity (t :: ts) ≤ 1) := by
  have hlt := ndvi_pre_lt latitude longitude temperature humidity
  refine ⟨?_, ?_, ?_, rfl, estimate_ndvi_api_mem latitude longitude temperature humidity _⟩
  · intro h
    simp only [estimate_ndvi_api]
    rw [if_pos h]
    congr 1
    exact min_eq_right (by linarith)
  · intro h
    simp only [estimate_ndvi_api]
    rw [if_neg (by linarith), if_pos h]
  · intro hge hle
    simp only [estimate_ndvi_api]
    rw [if_neg (by linarith), if_neg (by linarith)]

/-- C9 witness: the amended theorem's downward-bias branch at the
counterexample input. -/
theorem claim_C9_witness :
    estimate_ndvi_api 75 0 (-5) 20 [10, 2]
      = pyRound 2 (max 0 (ndvi_pre 75 0 (-5) 20 - 0.03)) :=
  (claim_C9 75 0 (-5) 20 10 [2]).2.1 (by norm_num)

/-! ## C4: chronological ordering of the processed climate history -/

instance : IsRefl (String × ℚ) keyLe := ⟨fun a => le_refl a.1⟩

lemma mem_rel_getLast {α : Type} {r : α → α → Prop} [IsRefl α r] :
    ∀ (l : List α), l.Sorted r → ∀ (hne : l ≠ []) (x : α), x ∈ l →
      r x (l.getLast hne) := by
  intro l
  induction l with
  | nil => exact fun _ hne => absurd rfl hne
  | cons a u ih =>
    intro hs hne x hx
    rcases u with _ | ⟨b, u2⟩
    · rcases List.mem_singleton.mp hx with rfl
      exact refl_of r x
    · rw [List.getLast_cons_cons]
      rcases List.mem_cons.mp hx with rfl | hx2
      · exact (List.pairwise_cons.mp hs).1 _ (List.getLast_mem _)
      · exact ih hs.of_cons (List.cons_ne_nil b u2) x hx2

lemma getLastD_map_of_ne_nil {α β : Type} (f : α → β) (l : List α) (hne : l ≠ [])
    (dflt : β) : (l.map f).getLastD dflt = f (l.getLast hne) := by
  rw [List.getLastD_eq_getLast?, List.getLast?_map,
    List.getLast?_eq_getLast_of_ne_nil hne]
  rfl

/-- The values list of `ordered_series` ends with the value stored at the
maximum key. -/
lemma ordered_series_current (series : List (String × ℚ))
    (hnd : (series.map Prod.fst).Nodup) (d : String) (v : ℚ)
    (hmem : (d, v) ∈ series) (hmax : ∀ q ∈ series, q.1 ≤ d) :
    (ordered_series series).2.getLastD 0 = v := by
  have hperm := List.perm_insertionSort keyLe series
  have hsort := List.sorted_insertionSort keyLe series
  have hne : List.insertionSort keyLe series ≠ [] := by
    intro h0
    have hlen := hperm.length_eq
    rw [h0] at hlen
    rcases series with _ | ⟨p, rest⟩
    · exact absurd hmem (List.not_mem_nil (d, v))
    · simp at hlen
  have hlast_mem : (List.insertionSort keyLe series).getLast hne ∈ series :=
    hperm.subset (List.getLast_mem hne)
  have hmem_s : (d, v) ∈ List.insertionSort keyLe series := hperm.mem_iff.mpr hmem
  have hrel : keyLe (d, v) ((List.insertionSort keyLe series).getLast hne) :=
    mem_rel_getLast _ hsort hne _ hmem_s
  have hkey : ((List.insertionSort keyLe series).getLast hne).1 = d :=
    le_antisymm (hmax _ hlast_mem) hrel
  have heq : (List.insertionSort keyLe series).getLast hne = (d, v) :=
    List.inj_on_of_nodup_map hnd hlast_mem hmem hkey
  show ((List.insertionSort keyLe series).map Prod.snd).getLastD 0 = v
  rw [getLastD_map_of_ne_nil Prod.snd _ hne, heq]

/-- The dates list of `ordered_series` is non-decreasing. -/
lemma ordered_series_dates_sorted (series : List (String × ℚ)) :
    (ordered_series series).1.Sorted (· ≤ ·) := by
  have hsort := List.sorted_insertionSort keyLe series
  show (((List.insertionSort keyLe series)).map Prod.fst).Sorted (· ≤ ·)
  exact List.Pairwise.map Prod.fst (fun _ _ h => h) hsort

/-- C4: for a climate time series keyed by date strings in arbitrary order
(keys distinct as in a dict), the processed history's `current` temperature
and humidity equal the value at the maximum date key, and the exposed
`time_series.dates` list is sorted non-decreasing. -/
theorem claim_C4 (t2m prectotcorr rh2m ws2m allsky : List (String × ℚ))
    (h1 : (t2m.map Prod.fst).Nodup) (h2 : (rh2m.map Prod.fst).Nodup) :
    (process_climate_data t2m prectotcorr rh2m ws2m allsky).time_series.dates.Sorted
      (· ≤ ·) ∧
    (∀ d v, (d, v) ∈ t2m → (∀ q ∈ t2m, q.1 ≤ d) →
      (process_climate_data t2m prectotcorr rh2m ws2m allsky).temperature.current = v) ∧
    (∀ d v, (d, v) ∈ rh2m → (∀ q ∈ rh2m, q.1 ≤ d) →
      (process_climate_data t2m prectotcorr rh2m ws2m allsky).humidity.current = v) := by
  refine ⟨ordered_series_dates_sorted t2m, ?_, ?_⟩
  · intro d v hmem hmax
    have hcur := ordered_series_current t2m h1 d v hmem hmax
    have hne : ¬(ordered_series t2m).2.isEmpty = true := by
      intro hemp
      rw [List.isEmpty_iff] at hemp
      have hperm := List.perm_insertionSort keyLe t2m
      have : (ordered_series t2m).2.length = t2m.length := by
        show ((List.insertionSort keyLe t2m).map Prod.snd).length = t2m.length
        rw [List.length_map]
        exact hperm.length_eq
      rw [hemp] at this
      rcases t2m with _ | ⟨p, rest⟩
      · exact absurd hmem (List.not_mem_nil (d, v))
      · simp at this
    show (safe_stats (ordered_series t2m).2).current = v
    rw [safe_stats, if_neg hne]
    exact hcur
  · intro d v hmem hmax
    have hcur := ordered_series_current rh2m h2 d v hmem hmax
    exact hcur

/-- C4 witness: the theorem applied to concrete out-of-order series. -/
theorem claim_C4_witness :
    (process_climate_data [("20240102", 5), ("20240101", 3)] []
      [("20240103", 60), ("20240101", 50)] [] []).temperature.current = 5 ∧
    (process_climate_data [("20240102", 5), ("20240101", 3)] []
      [("20240103", 60), ("20240101", 50)] [] []).humidity.current = 60 :=
  ⟨(claim_C4 [("20240102", 5), ("20240101", 3)] [] [("20240103", 60), ("20240101", 50)]
      [] [] (by simp) (by simp)).2.1 "20240102" 5 (by simp)
      (by
        simp only [List.mem_cons, List.not_mem_nil, or_false]
        rintro q (rfl | rfl) <;>
          (rw [String.le_iff_toList_le] <;> decide)),
   (claim_C4 [("20240102", 5), ("20240101", 3)] [] [("20240103", 60), ("20240101", 50)]
      [] [] (by simp) (by simp)).2.2 "20240103" 60 (by simp)
      (by
        simp only [List.mem_cons, List.not_mem_nil, or_false]
        rintro q (rfl | rfl) <;>
          (rw [String.le_iff_toList_le] <;> decide))⟩

end RegenArdhi
